import Mathlib

/-!
Shallow embedding of the outbound request pipeline and QR-login handshake of
src/src-tauri/src/lib.rs.  Each Rust operation is modelled from the point the
HTTP response has been received: a response is its status code, its Set-Cookie
header values, and its body text.  Where an operation deserializes the body
into a typed value via serde_json, the model either implements the serde
deserialization over an explicit JSON value type (for the decoders the claims
are about), or takes the deserialization result as an `Except String T`
argument standing for `serde_json::from_str::<T>(&text)`.
-/

/-- JSON numbers as serde_json stores them after parsing: `int` is an integer
literal (stored as u64 or i64); `dec` is a float literal, remembered as its
integer part and its fraction digits, which is the decimal rendering that
serde_json's `Number::to_string` prints for such a value. -/
inductive JsonNumber where
  | int (i : Int)
  | dec (i : Int) (frac : String)

/-- Rendering of a JSON number, modelling serde_json's `Number::to_string`:
integers print in base-10 with no fractional part, floats print as
integer part, a dot, and the fraction digits. -/
def JsonNumber.to_string : JsonNumber → String
  | .int i => toString i
  | .dec i frac => toString i ++ "." ++ frac

/-- JSON values, modelling serde_json::Value. -/
inductive Json where
  | null
  | bool (b : Bool)
  | num (n : JsonNumber)
  | str (s : String)
  | arr (elems : List Json)
  | obj (fields : List (String × Json))

/-- Success test on an HTTP status code, modelling reqwest's
`StatusCode::is_success` (true exactly for 2xx codes). -/
def is_success (status : Nat) : Bool :=
  200 ≤ status && status < 300

/-- Canonical reason phrase of an HTTP status code, modelling
`StatusCode::canonical_reason` for the codes that matter here. -/
def canonicalReason (status : Nat) : Option String :=
  if status = 200 then some "OK"
  else if status = 201 then some "Created"
  else if status = 204 then some "No Content"
  else if status = 400 then some "Bad Request"
  else if status = 401 then some "Unauthorized"
  else if status = 403 then some "Forbidden"
  else if status = 404 then some "Not Found"
  else if status = 429 then some "Too Many Requests"
  else if status = 500 then some "Internal Server Error"
  else if status = 502 then some "Bad Gateway"
  else if status = 503 then some "Service Unavailable"
  else none

/-- Display form of an HTTP status code, modelling the `Display`
implementation of `http::StatusCode` used by the Rust `format!` calls:
the code followed by its canonical reason. -/
def statusDisplay (status : Nat) : String :=
  toString status ++ " " ++ (canonicalReason status).getD "<unknown status code>"

/-! Primitive serde deserializers over `Json`, modelling how serde_json
deserializes each primitive Rust field type from a JSON value. -/

/-- Deserialization of a Rust `bool` field from a JSON value. -/
def decodeBool : Json → Except String Bool
  | .bool b => .ok b
  | _ => .error "invalid type: expected a boolean"

/-- Deserialization of a Rust `String` field from a JSON value. -/
def decodeString : Json → Except String String
  | .str s => .ok s
  | _ => .error "invalid type: expected a string"

/-- Deserialization of a Rust `Option<String>` field from a JSON value:
null maps to `None`, a string to `Some`, anything else is an error. -/
def decodeOptString : Json → Except String (Option String)
  | .null => .ok none
  | .str s => .ok (some s)
  | _ => .error "invalid type: expected a string or null"

/-- Deserialization of a Rust `i32` field from a JSON value: an in-range
integer literal succeeds, a float or any other kind is an error. -/
def decodeI32 : Json → Except String Int
  | .num (.int i) =>
    if -2147483648 ≤ i ∧ i ≤ 2147483647 then .ok i
    else .error "invalid value: integer out of range for i32"
  | .num (.dec _ _) => .error "invalid type: floating point, expected i32"
  | _ => .error "invalid type: expected i32"

/-- Deserialization of a Rust `i64` field from a JSON value. -/
def decodeI64 : Json → Except String Int
  | .num (.int i) =>
    if -9223372036854775808 ≤ i ∧ i ≤ 9223372036854775807 then .ok i
    else .error "invalid value: integer out of range for i64"
  | .num (.dec _ _) => .error "invalid type: floating point, expected i64"
  | _ => .error "invalid type: expected i64"

/-- Deserialization of a Rust `Option<i32>` field: null maps to `None`. -/
def decodeOptI32 : Json → Except String (Option Int)
  | .null => .ok none
  | j => (decodeI32 j).map some

/-- Deserialization of a Rust `Option<i64>` field: null maps to `None`. -/
def decodeOptI64 : Json → Except String (Option Int)
  | .null => .ok none
  | j => (decodeI64 j).map some

/-- Deserialization of a Rust `Option<serde_json::Value>` field: null maps
to `None`, any other value is kept verbatim. -/
def decodeOptJson : Json → Except String (Option Json)
  | .null => .ok none
  | j => .ok (some j)

/-- Deserialization of a Rust `Vec<T>` field from a JSON value given an
element deserializer. -/
def decodeList {T : Type} (d : Json → Except String T) : Json → Except String (List T)
  | .arr xs => xs.mapM d
  | _ => .error "invalid type: expected a sequence"

/-! The flexible identifier decoder (lib.rs lines 123-186). -/

/-- Decoding step of the `session_id` wire value, modelling the
`SessionIdVisitor` in lib.rs `deserialize_session_id`: the field's
deserializer calls `deserialize_option`, which maps null to `None`
(`visit_none`) and otherwise deserializes the raw value as a
`serde_json::Value` and branches on its kind: a string is accepted verbatim,
a number is rendered with `Number::to_string`, and any other kind is an
`invalid_type` error. -/
def deserialize_session_id : Json → Except String (Option String)
  | .null => .ok none
  | .str s => .ok (some s)
  | .num n => .ok (some n.to_string)
  | .bool _ => .error "invalid type: expected string, number, or null"
  | .arr _ => .error "invalid type: expected string, number, or null"
  | .obj _ => .error "invalid type: expected string, number, or null"

/-! The active-session response struct (lib.rs lines 114-120) and its serde
derive deserialization.  The `session_id` field carries
`#[serde(deserialize_with = "deserialize_session_id")]` and no
`#[serde(default)]`, so serde's derive makes an entirely absent field a hard
`missing field` error, while `success` is a required bool and `message` is a
plain `Option<String>` that defaults to `None` when absent. -/

structure ActiveSessionApiResponse where
  success : Bool
  session_id : Option String
  message : Option String

/-- Field-collection loop of the serde derive for `ActiveSessionApiResponse`:
walk the object entries in order, erroring on a duplicate or ill-typed known
field and ignoring unknown fields, then resolve missing fields in declaration
order. -/
def collectActiveSession : List (String × Json) → Option Bool →
    Option (Option String) → Option (Option String) →
    Except String ActiveSessionApiResponse
  | [], succV, sidV, msgV =>
    match succV with
    | none => .error "missing field `success`"
    | some s =>
      match sidV with
      | none => .error "missing field `session_id`"
      | some sid => .ok { success := s, session_id := sid, message := msgV.getD none }
  | (k, v) :: rest, succV, sidV, msgV =>
    if k = "success" then
      match succV with
      | some _ => .error "duplicate field `success`"
      | none =>
        match decodeBool v with
        | .error e => .error e
        | .ok b => collectActiveSession rest (some b) sidV msgV
    else if k = "session_id" then
      match sidV with
      | some _ => .error "duplicate field `session_id`"
      | none =>
        match deserialize_session_id v with
        | .error e => .error e
        | .ok x => collectActiveSession rest succV (some x) msgV
    else if k = "message" then
      match msgV with
      | some _ => .error "duplicate field `message`"
      | none =>
        match decodeOptString v with
        | .error e => .error e
        | .ok m => collectActiveSession rest succV sidV (some m)
    else
      collectActiveSession rest succV sidV msgV

/-- Deserialization of `ActiveSessionApiResponse` from a JSON value. -/
def decodeActiveSessionApiResponse : Json → Except String ActiveSessionApiResponse
  | .obj fields => collectActiveSession fields none none none
  | .null => .error "invalid type: null, expected struct ActiveSessionApiResponse"
  | _ => .error "invalid type: expected struct ActiveSessionApiResponse"

/-! The QR-login response struct (lib.rs lines 233-246) and the login
outcome returned to the caller. -/

structure QRCodeLoginResponse where
  bff_meta : Option Json
  error : Int
  error_msg : Option String
  data : Option Json

structure LoginResult where
  success : Bool
  cookies : Option String
  error_msg : Option String
deriving DecidableEq

/-- Field-collection loop of the serde derive for `QRCodeLoginResponse`:
only `error` is required; the three `Option` fields default to `None`
when absent. -/
def collectQRCodeLogin : List (String × Json) → Option (Option Json) →
    Option Int → Option (Option String) → Option (Option Json) →
    Except String QRCodeLoginResponse
  | [], bffV, errV, msgV, dataV =>
    match errV with
    | none => .error "missing field `error`"
    | some e =>
      .ok { bff_meta := bffV.getD none, error := e,
            error_msg := msgV.getD none, data := dataV.getD none }
  | (k, v) :: rest, bffV, errV, msgV, dataV =>
    if k = "bff_meta" then
      match bffV with
      | some _ => .error "duplicate field `bff_meta`"
      | none =>
        match decodeOptJson v with
        | .error e => .error e
        | .ok x => collectQRCodeLogin rest (some x) errV msgV dataV
    else if k = "error" then
      match errV with
      | some _ => .error "duplicate field `error`"
      | none =>
        match decodeI32 v with
        | .error e => .error e
        | .ok x => collectQRCodeLogin rest bffV (some x) msgV dataV
    else if k = "error_msg" then
      match msgV with
      | some _ => .error "duplicate field `error_msg`"
      | none =>
        match decodeOptString v with
        | .error e => .error e
        | .ok x => collectQRCodeLogin rest bffV errV (some x) dataV
    else if k = "data" then
      match dataV with
      | some _ => .error "duplicate field `data`"
      | none =>
        match decodeOptJson v with
        | .error e => .error e
        | .ok x => collectQRCodeLogin rest bffV errV msgV (some x)
    else
      collectQRCodeLogin rest bffV errV msgV dataV

/-- Deserialization of `QRCodeLoginResponse` from a JSON value, the shape
`serde_json::from_str::<QRCodeLoginResponse>` expects. -/
def decodeQRCodeLoginResponse : Json → Except String QRCodeLoginResponse
  | .obj fields => collectQRCodeLogin fields none none none none
  | .null => .error "invalid type: null, expected struct QRCodeLoginResponse"
  | _ => .error "invalid type: expected struct QRCodeLoginResponse"

/-- Response handling of `qr_login` (lib.rs lines 917-954).  The Set-Cookie
header values have already been extracted (in header order) before the body
is inspected; `parsed` is the result of
`serde_json::from_str::<QRCodeLoginResponse>(&text)`.  A non-success HTTP
status returns `Ok` with a failed `LoginResult`; a body that does not parse
is the only hard error; a nonzero upstream error code returns a failed
`LoginResult` with the upstream message; otherwise the joined cookie string
is returned on a successful `LoginResult`. -/
def qr_login_handle (status : Nat) (set_cookie_headers : List String)
    (text : String) (parsed : Except String QRCodeLoginResponse) :
    Except String LoginResult :=
  if is_success status = false then
    .ok { success := false, cookies := none,
          error_msg := some ("HTTP " ++ statusDisplay status ++ ": " ++ text) }
  else
    match parsed with
    | .error e => .error ("Failed to parse response: " ++ e ++ " - Response: " ++ text)
    | .ok login_response =>
      if login_response.error ≠ 0 then
        .ok { success := false, cookies := none,
              error_msg := login_response.error_msg }
      else
        .ok { success := true,
              cookies := some (String.intercalate "; " set_cookie_headers),
              error_msg := none }

/-! The QR challenge-generation and status-poll upstream calls
(lib.rs lines 802-880). -/

structure ShopeeQRData where
  qrcode_id : String
  qrcode_base64 : String
deriving DecidableEq

structure ShopeeQRResponse where
  error : Int
  error_msg : Option String
  data : Option ShopeeQRData

structure QRStatusData where
  qrcode_token : String
  status : String

structure ShopeeQRStatusResponse where
  error : Int
  error_msg : Option String
  data : Option QRStatusData

structure AppQRStatus where
  status : String
  qrcode_token : Option String
deriving DecidableEq

/-- Response handling of `generate_shopee_qr` (lib.rs lines 819-835):
a non-success status or parse failure is a hard error; a nonzero upstream
error code errors with the upstream message; a zero error code with absent
data errors with the missing-data message; otherwise the data is returned. -/
def generate_shopee_qr_handle (status : Nat) (text : String)
    (parsed : Except String ShopeeQRResponse) : Except String ShopeeQRData :=
  if is_success status = false then
    .error ("HTTP " ++ statusDisplay status ++ ": " ++ text)
  else
    match parsed with
    | .error e => .error ("Failed to parse response: " ++ e ++ " - Response: " ++ text)
    | .ok qr_response =>
      if qr_response.error ≠ 0 then
        .error ("Shopee API error: " ++ toString qr_response.error ++ " - " ++
          qr_response.error_msg.getD "Unknown error")
      else
        match qr_response.data with
        | none => .error "Invalid response from Shopee API"
        | some d => .ok d

/-- Response handling of `check_qr_status` (lib.rs lines 858-880): after the
status, parse, upstream-error and missing-data checks, the returned
`AppQRStatus` normalizes an empty `qrcode_token` to `None` and wraps a
non-empty one in `Some`. -/
def check_qr_status_handle (status : Nat) (text : String)
    (parsed : Except String ShopeeQRStatusResponse) : Except String AppQRStatus :=
  if is_success status = false then
    .error ("HTTP " ++ statusDisplay status ++ ": " ++ text)
  else
    match parsed with
    | .error e => .error ("Failed to parse response: " ++ e ++ " - Response: " ++ text)
    | .ok status_response =>
      if status_response.error ≠ 0 then
        .error ("Shopee API error: " ++ toString status_response.error ++ " - " ++
          status_response.error_msg.getD "Unknown error")
      else
        match status_response.data with
        | none => .error "No data in response"
        | some data =>
          .ok { status := data.status,
                qrcode_token :=
                  if data.qrcode_token = "" then none else some data.qrcode_token }

/-- Response classification of `make_api_request` (lib.rs lines 341-355):
`parsed` is the result of `serde_json::from_str::<T>(&text)`.  A non-success
status errors with the status display and the raw body before the body is
ever parsed; a success status with a parse failure errors with the parse
diagnostic and the raw body; a success status with a parsed body returns the
typed value. -/
def make_api_request_handle {T : Type} (status : Nat) (text : String)
    (parsed : Except String T) : Except String T :=
  if is_success status = false then
    .error ("HTTP " ++ statusDisplay status ++ ": " ++ text)
  else
    match parsed with
    | .ok p => .ok p
    | .error e => .error ("Failed to parse response: " ++ e ++ " - " ++ text)

/-! The first-party envelope (lib.rs lines 8-14) and the nested
create/update extraction steps (lib.rs lines 477-496, 499-517, 552-571,
626-648).  The envelope's flattened `data` field holds the remaining
top-level fields of the response as a JSON value. -/

structure ApiResponse (T : Type) where
  success : Bool
  data : Option T
  message : Option String

/-- Indexing a serde_json value by a string key, modelling
`Value::index`: a missing key or a non-object yields `Value::Null`. -/
def jindex (j : Json) (key : String) : Json :=
  match j with
  | .obj fields =>
    match List.lookup key fields with
    | some v => v
    | none => .null
  | _ => .null

structure ShopeeAccount where
  id : Int
  name : String
  is_active : Bool
  created_at : Option String
deriving DecidableEq

structure ProductSetItem where
  id : Int
  url : String
  shop_id : Option Int
  item_id : Option Int
deriving DecidableEq

structure ProductSet where
  id : Int
  name : String
  description : Option String
  niche_id : Option Int
  items : List ProductSetItem
deriving DecidableEq

structure Niche where
  id : Int
  name : String
  description : Option String
  product_sets : List ProductSet
deriving DecidableEq

/-- Field-collection loop of the serde derive for `ShopeeAccount`. -/
def collectShopeeAccount : List (String × Json) → Option Int → Option String →
    Option Bool → Option (Option String) → Except String ShopeeAccount
  | [], idV, nameV, actV, createdV =>
    match idV with
    | none => .error "missing field `id`"
    | some i =>
      match nameV with
      | none => .error "missing field `name`"
      | some n =>
        match actV with
        | none => .error "missing field `is_active`"
        | some a =>
          .ok { id := i, name := n, is_active := a, created_at := createdV.getD none }
  | (k, v) :: rest, idV, nameV, actV, createdV =>
    if k = "id" then
      match idV with
      | some _ => .error "duplicate field `id`"
      | none =>
        match decodeI32 v with
        | .error e => .error e
        | .ok x => collectShopeeAccount rest (some x) nameV actV createdV
    else if k = "name" then
      match nameV with
      | some _ => .error "duplicate field `name`"
      | none =>
        match decodeString v with
        | .error e => .error e
        | .ok x => collectShopeeAccount rest idV (some x) actV createdV
    else if k = "is_active" then
      match actV with
      | some _ => .error "duplicate field `is_active`"
      | none =>
        match decodeBool v with
        | .error e => .error e
        | .ok x => collectShopeeAccount rest idV nameV (some x) createdV
    else if k = "created_at" then
      match createdV with
      | some _ => .error "duplicate field `created_at`"
      | none =>
        match decodeOptString v with
        | .error e => .error e
        | .ok x => collectShopeeAccount rest idV nameV actV (some x)
    else
      collectShopeeAccount rest idV nameV actV createdV

/-- Deserialization of `ShopeeAccount` from a JSON value, the shape
`serde_json::from_value::<ShopeeAccount>` expects. -/
def decodeShopeeAccount : Json → Except String ShopeeAccount
  | .obj fields => collectShopeeAccount fields none none none none
  | .null => .error "invalid type: null, expected struct ShopeeAccount"
  | _ => .error "invalid type: expected struct ShopeeAccount"

/-- Field-collection loop of the serde derive for `ProductSetItem`. -/
def collectProductSetItem : List (String × Json) → Option Int → Option String →
    Option (Option Int) → Option (Option Int) → Except String ProductSetItem
  | [], idV, urlV, shopV, itemV =>
    match idV with
    | none => .error "missing field `id`"
    | some i =>
      match urlV with
      | none => .error "missing field `url`"
      | some u =>
        .ok { id := i, url := u, shop_id := shopV.getD none, item_id := itemV.getD none }
  | (k, v) :: rest, idV, urlV, shopV, itemV =>
    if k = "id" then
      match idV with
      | some _ => .error "duplicate field `id`"
      | none =>
        match decodeI32 v with
        | .error e => .error e
        | .ok x => collectProductSetItem rest (some x) urlV shopV itemV
    else if k = "url" then
      match urlV with
      | some _ => .error "duplicate field `url`"
      | none =>
        match decodeString v with
        | .error e => .error e
        | .ok x => collectProductSetItem rest idV (some x) shopV itemV
    else if k = "shop_id" then
      match shopV with
      | some _ => .error "duplicate field `shop_id`"
      | none =>
        match decodeOptI64 v with
        | .error e => .error e
        | .ok x => collectProductSetItem rest idV urlV (some x) itemV
    else if k = "item_id" then
      match itemV with
      | some _ => .error "duplicate field `item_id`"
      | none =>
        match decodeOptI64 v with
        | .error e => .error e
        | .ok x => collectProductSetItem rest idV urlV shopV (some x)
    else
      collectProductSetItem rest idV urlV shopV itemV

/-- Deserialization of `ProductSetItem` from a JSON value. -/
def decodeProductSetItem : Json → Except String ProductSetItem
  | .obj fields => collectProductSetItem fields none none none none
  | .null => .error "invalid type: null, expected struct ProductSetItem"
  | _ => .error "invalid type: expected struct ProductSetItem"

/-- Field-collection loop of the serde derive for `ProductSet`: the `items`
field carries `#[serde(default)]`, so an absent field resolves to the empty
vector. -/
def collectProductSet : List (String × Json) → Option Int → Option String →
    Option (Option String) → Option (Option Int) → Option (List ProductSetItem) →
    Except String ProductSet
  | [], idV, nameV, descV, nicheV, itemsV =>
    match idV with
    | none => .error "missing field `id`"
    | some i =>
      match nameV with
      | none => .error "missing field `name`"
      | some n =>
        .ok { id := i, name := n, description := descV.getD none,
              niche_id := nicheV.getD none, items := itemsV.getD [] }
  | (k, v) :: rest, idV, nameV, descV, nicheV, itemsV =>
    if k = "id" then
      match idV with
      | some _ => .error "duplicate field `id`"
      | none =>
        match decodeI32 v with
        | .error e => .error e
        | .ok x => collectProductSet rest (some x) nameV descV nicheV itemsV
    else if k = "name" then
      match nameV with
      | some _ => .error "duplicate field `name`"
      | none =>
        match decodeString v with
        | .error e => .error e
        | .ok x => collectProductSet rest idV (some x) descV nicheV itemsV
    else if k = "description" then
      match descV with
      | some _ => .error "duplicate field `description`"
      | none =>
        match decodeOptString v with
        | .error e => .error e
        | .ok x => collectProductSet rest idV nameV (some x) nicheV itemsV
    else if k = "niche_id" then
      match nicheV with
      | some _ => .error "duplicate field `niche_id`"
      | none =>
        match decodeOptI32 v with
        | .error e => .error e
        | .ok x => collectProductSet rest idV nameV descV (some x) itemsV
    else if k = "items" then
      match itemsV with
      | some _ => .error "duplicate field `items`"
      | none =>
        match decodeList decodeProductSetItem v with
        | .error e => .error e
        | .ok x => collectProductSet rest idV nameV descV nicheV (some x)
    else
      collectProductSet rest idV nameV descV nicheV itemsV

/-- Deserialization of `ProductSet` from a JSON value. -/
def decodeProductSet : Json → Except String ProductSet
  | .obj fields => collectProductSet fields none none none none none
  | .null => .error "invalid type: null, expected struct ProductSet"
  | _ => .error "invalid type: expected struct ProductSet"

/-- Field-collection loop of the serde derive for `Niche`: the
`product_sets` field carries `#[serde(default)]`. -/
def collectNiche : List (String × Json) → Option Int → Option String →
    Option (Option String) → Option (List ProductSet) → Except String Niche
  | [], idV, nameV, descV, setsV =>
    match idV with
    | none => .error "missing field `id`"
    | some i =>
      match nameV with
      | none => .error "missing field `name`"
      | some n =>
        .ok { id := i, name := n, description := descV.getD none,
              product_sets := setsV.getD [] }
  | (k, v) :: rest, idV, nameV, descV, setsV =>
    if k = "id" then
      match idV with
      | some _ => .error "duplicate field `id`"
      | none =>
        match decodeI32 v with
        | .error e => .error e
        | .ok x => collectNiche rest (some x) nameV descV setsV
    else if k = "name" then
      match nameV with
      | some _ => .error "duplicate field `name`"
      | none =>
        match decodeString v with
        | .error e => .error e
        | .ok x => collectNiche rest idV (some x) descV setsV
    else if k = "description" then
      match descV with
      | some _ => .error "duplicate field `description`"
      | none =>
        match decodeOptString v with
        | .error e => .error e
        | .ok x => collectNiche rest idV nameV (some x) setsV
    else if k = "product_sets" then
      match setsV with
      | some _ => .error "duplicate field `product_sets`"
      | none =>
        match decodeList decodeProductSet v with
        | .error e => .error e
        | .ok x => collectNiche rest idV nameV descV (some x)
    else
      collectNiche rest idV nameV descV setsV

/-- Deserialization of `Niche` from a JSON value. -/
def decodeNiche : Json → Except String Niche
  | .obj fields => collectNiche fields none none none none
  | .null => .error "invalid type: null, expected struct Niche"
  | _ => .error "invalid type: expected struct Niche"

/-- Post-envelope step of `add_shopee_account` (lib.rs lines 486-496): on an
unsuccessful envelope return the message; with no flattened data return the
missing-data message; otherwise index the data under the key `data` and
deserialize a `ShopeeAccount` from it, wrapping any failure. -/
def add_shopee_account_extract (resp : ApiResponse Json) : Except String ShopeeAccount :=
  if resp.success = false then
    .error (resp.message.getD "Failed to add account")
  else
    match resp.data with
    | none => .error "No data in response"
    | some d =>
      match decodeShopeeAccount (jindex d "data") with
      | .error e => .error ("Failed to parse account: " ++ e)
      | .ok account => .ok account

/-- Post-envelope step of `update_shopee_account` (lib.rs lines 508-517):
the updated account is indexed under the key `shopee_account`. -/
def update_shopee_account_extract (resp : ApiResponse Json) : Except String ShopeeAccount :=
  if resp.success = false then
    .error (resp.message.getD "Failed to update account")
  else
    match resp.data with
    | none => .error "No data in response"
    | some d =>
      match decodeShopeeAccount (jindex d "shopee_account") with
      | .error e => .error ("Failed to parse account: " ++ e)
      | .ok account => .ok account

/-- Post-envelope step of `create_niche` (lib.rs lines 562-571): the created
niche is indexed under the key `niche`. -/
def create_niche_extract (resp : ApiResponse Json) : Except String Niche :=
  if resp.success = false then
    .error (resp.message.getD "Failed to create niche")
  else
    match resp.data with
    | none => .error "No data in response"
    | some d =>
      match decodeNiche (jindex d "niche") with
      | .error e => .error ("Failed to parse niche: " ++ e)
      | .ok niche => .ok niche

/-- Post-envelope step of `create_product_set` (lib.rs lines 639-648): the
created product set is indexed under the key `product_set`. -/
def create_product_set_extract (resp : ApiResponse Json) : Except String ProductSet :=
  if resp.success = false then
    .error (resp.message.getD "Failed to create product set")
  else
    match resp.data with
    | none => .error "No data in response"
    | some d =>
      match decodeProductSet (jindex d "product_set") with
      | .error e => .error ("Failed to parse product set: " ++ e)
      | .ok product_set => .ok product_set

/-! Model of the response-body log step of `make_api_request`
(lib.rs lines 333-339).  Rust's `text.len()` is the UTF-8 byte length and
`&text[..500]` panics when byte offset 500 is not a character boundary, so
the log step is modelled as an `Option`: `none` is a panic. -/

/-- UTF-8 byte length of a character list, modelling Rust `str::len`. -/
def utf8Len : List Char → Nat
  | [] => 0
  | c :: cs => c.utf8Size + utf8Len cs

/-- UTF-8 byte length of a string, modelling Rust `str::len`. -/
def rust_str_len (s : String) : Nat := utf8Len s.data

/-- Character-boundary test on a byte offset into a character list,
modelling Rust `str::is_char_boundary` (with offsets past the end also
rejected, as slicing past the end panics). -/
def charBoundaryAux : List Char → Nat → Bool
  | _, 0 => true
  | [], _ + 1 => false
  | c :: cs, n + 1 =>
    if n + 1 < c.utf8Size then false else charBoundaryAux cs (n + 1 - c.utf8Size)

/-- Characters whose UTF-8 encoding fits the first `n` bytes, used to build
the sliced prefix once the boundary test has passed. -/
def takeUtf8 : List Char → Nat → List Char
  | _, 0 => []
  | [], _ + 1 => []
  | c :: cs, n + 1 => c :: takeUtf8 cs (n + 1 - c.utf8Size)

/-- Rust byte slicing `&s[..n]`, which panics (`none`) when `n` is not a
character boundary of `s`. -/
def rust_slice_to (s : String) (n : Nat) : Option String :=
  if charBoundaryAux s.data n then some (String.mk (takeUtf8 s.data n)) else none

/-- Response-body log line of `make_api_request` (lib.rs lines 335-339):
bodies under 500 bytes are printed whole; otherwise the `&text[..500]`
prefix is printed, which panics (`none`) when byte 500 is not a character
boundary of the body. -/
def api_response_body_log (text : String) : Option String :=
  if rust_str_len text < 500 then
    some ("[API RESPONSE BODY]\n" ++ text)
  else
    match rust_slice_to text 500 with
    | some p =>
      some ("[API RESPONSE BODY] (truncated, " ++ toString (rust_str_len text) ++ " chars)\n" ++ p)
    | none => none

/-- Body of 499 one-byte characters followed by one two-byte character:
501 bytes long, with no character boundary at byte 500. -/
def c7_body : String := String.mk (List.replicate 499 'a' ++ ['é'])

/-- Wire form of a valid ShopeeAccount object, used as a concrete input. -/
def goodAccountJson : Json :=
  Json.obj [("id", Json.num (JsonNumber.int 7)), ("name", Json.str "main"),
            ("is_active", Json.bool true), ("created_at", Json.null)]

/-- Wire form of a valid Niche object, used as a concrete input. -/
def goodNicheJson : Json :=
  Json.obj [("id", Json.num (JsonNumber.int 3)), ("name", Json.str "fashion"),
            ("description", Json.null)]

/-! Helper lemmas. -/

/-- Head character of a Shopee upstream-error message. -/
theorem shopeeApiErrorHead (a b : String) :
    ("Shopee API error: " ++ a ++ " - " ++ b).data.head? = some 'S' := rfl

/-- Upstream nonzero-error messages are never the generate-phase
missing-data message. -/
theorem shopeeApiErrorNeInvalid (a b : String) :
    ("Shopee API error: " ++ a ++ " - " ++ b) ≠ "Invalid response from Shopee API" := by
  intro h
  have h2 : (("Shopee API error: " ++ a ++ " - " ++ b) : String).data.head? =
      ("Invalid response from Shopee API" : String).data.head? := by rw [h]
  rw [shopeeApiErrorHead] at h2
  exact absurd h2 (by decide)

/-- Upstream nonzero-error messages are never the poll-phase missing-data
message. -/
theorem shopeeApiErrorNeNoData (a b : String) :
    ("Shopee API error: " ++ a ++ " - " ++ b) ≠ "No data in response" := by
  intro h
  have h2 : (("Shopee API error: " ++ a ++ " - " ++ b) : String).data.head? =
      ("No data in response" : String).data.head? := by rw [h]
  rw [shopeeApiErrorHead] at h2
  exact absurd h2 (by decide)

/-- Collection loop for the active-session response: when no entry carries
the key session_id and no session_id value has been seen, the result is an
error, whatever the other accumulators hold. -/
theorem collectActiveSession_no_sid (fields : List (String × Json))
    (h : "session_id" ∉ fields.map Prod.fst) :
    ∀ succV msgV, ∃ e, collectActiveSession fields succV none msgV = Except.error e := by
  induction fields with
  | nil =>
    intro succV msgV
    cases succV with
    | none => exact ⟨_, rfl⟩
    | some s => exact ⟨_, rfl⟩
  | cons kv rest ih =>
    intro succV msgV
    obtain ⟨k, v⟩ := kv
    have hk : k ≠ "session_id" := by
      intro hkk
      exact h (by simp [hkk])
    have hrest : "session_id" ∉ rest.map Prod.fst := by
      intro hm
      exact h (by simp [hm])
    simp only [collectActiveSession]
    by_cases h1 : k = "success"
    · rw [if_pos h1]
      cases succV with
      | some _ => exact ⟨_, rfl⟩
      | none =>
        cases hdb : decodeBool v with
        | error e => exact ⟨e, rfl⟩
        | ok b =>
          obtain ⟨e, he⟩ := ih hrest (some b) msgV
          exact ⟨e, he⟩
    · rw [if_neg h1, if_neg hk]
      by_cases h3 : k = "message"
      · rw [if_pos h3]
        cases msgV with
        | some _ => exact ⟨_, rfl⟩
        | none =>
          cases hdm : decodeOptString v with
          | error e => exact ⟨e, rfl⟩
          | ok m =>
            obtain ⟨e, he⟩ := ih hrest succV (some m)
            exact ⟨e, he⟩
      · rw [if_neg h3]
        exact ih hrest succV msgV

/-- C1: every token-exchange (qr_login) response with a success HTTP status
whose body decodes with upstream error code 0 yields a LoginResult with
success true, no error message, and cookies equal to all Set-Cookie response
header values joined with "; " in header order. -/
theorem C1_qr_login_success (status : Nat) (set_cookie_headers : List String)
    (text : String) (lr : QRCodeLoginResponse)
    (hs : is_success status = true) (he : lr.error = 0) :
    qr_login_handle status set_cookie_headers text (Except.ok lr) =
      Except.ok { success := true,
                  cookies := some (String.intercalate "; " set_cookie_headers),
                  error_msg := none } := by
  simp [qr_login_handle, hs, he]

/-- C1 witness: a 200 response with Set-Cookie headers a=1 and b=2 whose
body decodes with error 0 yields success with cookies "a=1; b=2". -/
theorem C1_qr_login_success_witness :
    qr_login_handle 200 ["a=1", "b=2"] "\x7b\"error\":0\x7d"
        (decodeQRCodeLoginResponse (Json.obj [("error", Json.num (JsonNumber.int 0))])) =
      Except.ok { success := true, cookies := some "a=1; b=2", error_msg := none } := by
  have hdec : decodeQRCodeLoginResponse (Json.obj [("error", Json.num (JsonNumber.int 0))]) =
      Except.ok { bff_meta := none, error := 0, error_msg := none, data := none } := rfl
  rw [hdec]
  have h := C1_qr_login_success 200 ["a=1", "b=2"] "\x7b\"error\":0\x7d"
      { bff_meta := none, error := 0, error_msg := none, data := none } (by decide) rfl
  rw [h]
  rfl

/-- C2: every token-exchange (qr_login) response with a non-success HTTP
status returns normally (an ok LoginResult, not a hard failure) with success
false, an error message combining the status and the raw body, and cookies
absent, whatever Set-Cookie headers the response carries. -/
theorem C2_qr_login_http_failure (status : Nat) (set_cookie_headers : List String)
    (text : String) (parsed : Except String QRCodeLoginResponse)
    (hs : is_success status = false) :
    qr_login_handle status set_cookie_headers text parsed =
      Except.ok { success := false, cookies := none,
                  error_msg := some ("HTTP " ++ statusDisplay status ++ ": " ++ text) } := by
  simp [qr_login_handle, hs]

/-- C2 witness: a 403 response carrying a Set-Cookie header still returns an
ok LoginResult with success false and the status plus body as message. -/
theorem C2_qr_login_http_failure_witness :
    qr_login_handle 403 ["a=1"] "denied"
        (Except.error "expected value at line 1 column 1") =
      Except.ok { success := false, cookies := none,
                  error_msg := some "HTTP 403 Forbidden: denied" } := by
  have h := C2_qr_login_http_failure 403 ["a=1"] "denied"
      (Except.error "expected value at line 1 column 1") (by decide)
  rw [h]
  rfl

/-- C10: every token-exchange (qr_login) response that succeeds (success
HTTP status, upstream error code 0) while carrying zero Set-Cookie headers
still returns cookies present but equal to the empty string. -/
theorem C10_qr_login_no_cookies (status : Nat) (text : String)
    (lr : QRCodeLoginResponse) (hs : is_success status = true) (he : lr.error = 0) :
    qr_login_handle status [] text (Except.ok lr) =
      Except.ok { success := true, cookies := some "", error_msg := none } := by
  simp [qr_login_handle, hs, he]
  rfl

/-- C10 witness: a 204 response with error 0 and no Set-Cookie headers
yields cookies present and empty. -/
theorem C10_qr_login_no_cookies_witness :
    qr_login_handle 204 [] "\x7b\"error\":0\x7d"
        (Except.ok { bff_meta := none, error := 0, error_msg := none, data := none }) =
      Except.ok { success := true, cookies := some "", error_msg := none } :=
  C10_qr_login_no_cookies 204 "\x7b\"error\":0\x7d"
    { bff_meta := none, error := 0, error_msg := none, data := none } (by decide) rfl

/-- C4: the request executor classifies a received response as follows: a
non-success status yields the HTTP-status failure carrying the status and
the raw body whatever the parse outcome; a success status with a failed
parse yields the decode failure carrying the parse error and the raw body;
and a success status with a parsed body yields exactly the typed value. -/
theorem C4_make_api_request_classification {T : Type} (status : Nat)
    (text : String) (parsed : Except String T) :
    (is_success status = false →
      make_api_request_handle status text parsed =
        Except.error ("HTTP " ++ statusDisplay status ++ ": " ++ text)) ∧
    (∀ e, is_success status = true → parsed = Except.error e →
      make_api_request_handle status text parsed =
        Except.error ("Failed to parse response: " ++ e ++ " - " ++ text)) ∧
    (∀ v, is_success status = true → parsed = Except.ok v →
      make_api_request_handle status text parsed = Except.ok v) := by
  refine ⟨fun hs => ?_, fun e hs hp => ?_, fun v hs hp => ?_⟩
  · simp [make_api_request_handle, hs]
  · subst hp
    simp [make_api_request_handle, hs]
  · subst hp
    simp [make_api_request_handle, hs]

/-- C4 witness: status 500 with a body that parses is still the HTTP-status
failure; status 200 with an unparseable body is the decode failure; status
200 with a parsed body is the typed value. -/
theorem C4_make_api_request_classification_witness :
    make_api_request_handle 500 "\x7b\"error\":0\x7d"
        (Except.ok ({ bff_meta := none, error := 0, error_msg := none,
                      data := none } : QRCodeLoginResponse)) =
      Except.error "HTTP 500 Internal Server Error: \x7b\"error\":0\x7d" ∧
    make_api_request_handle 200 "not json"
        (Except.error "expected value at line 1 column 1" :
          Except String QRCodeLoginResponse) =
      Except.error "Failed to parse response: expected value at line 1 column 1 - not json" ∧
    make_api_request_handle 200 "\x7b\"error\":0\x7d"
        (Except.ok ({ bff_meta := none, error := 0, error_msg := none,
                      data := none } : QRCodeLoginResponse)) =
      Except.ok ({ bff_meta := none, error := 0, error_msg := none,
                   data := none } : QRCodeLoginResponse) := by
  refine ⟨?_, ?_, ?_⟩
  · have h := (C4_make_api_request_classification 500 "\x7b\"error\":0\x7d"
        (Except.ok ({ bff_meta := none, error := 0, error_msg := none,
                      data := none } : QRCodeLoginResponse))).1 (by decide)
    rw [h]
    rfl
  · have h := (C4_make_api_request_classification 200 "not json"
        (Except.error "expected value at line 1 column 1" :
          Except String QRCodeLoginResponse)).2.1 _ (by decide) rfl
    rw [h]
    rfl
  · exact (C4_make_api_request_classification 200 "\x7b\"error\":0\x7d"
        (Except.ok ({ bff_meta := none, error := 0, error_msg := none,
                      data := none } : QRCodeLoginResponse))).2.2 _ (by decide) rfl

/-- C9: every status-poll response whose payload decodes (error 0 and data
present) returns a token that is absent exactly when the upstream
qrcode_token is the empty string and is the token string otherwise, so the
returned token is never present-but-empty. -/
theorem C9_check_qr_status_token_normalized (status : Nat) (text : String)
    (r : ShopeeQRStatusResponse) (d : QRStatusData)
    (hs : is_success status = true) (he : r.error = 0) (hd : r.data = some d) :
    check_qr_status_handle status text (Except.ok r) =
      Except.ok { status := d.status,
                  qrcode_token := if d.qrcode_token = "" then none
                                  else some d.qrcode_token } ∧
    (if d.qrcode_token = "" then none else some d.qrcode_token) ≠ some "" := by
  constructor
  · simp [check_qr_status_handle, hs, he, hd]
  · by_cases hemp : d.qrcode_token = ""
    · simp [hemp]
    · simp [hemp]

/-- C9 witness: an empty upstream token comes back absent, a non-empty one
comes back as-is. -/
theorem C9_check_qr_status_token_normalized_witness :
    check_qr_status_handle 200 "body"
        (Except.ok { error := 0, error_msg := none,
                     data := some { qrcode_token := "", status := "WAITING" } }) =
      Except.ok { status := "WAITING", qrcode_token := none } ∧
    check_qr_status_handle 200 "body"
        (Except.ok { error := 0, error_msg := none,
                     data := some { qrcode_token := "tok123", status := "CONFIRMED" } }) =
      Except.ok { status := "CONFIRMED", qrcode_token := some "tok123" } := by
  constructor
  · have h := (C9_check_qr_status_token_normalized 200 "body"
        { error := 0, error_msg := none,
          data := some { qrcode_token := "", status := "WAITING" } }
        { qrcode_token := "", status := "WAITING" } (by decide) rfl rfl).1
    rw [h]
    rfl
  · have h := (C9_check_qr_status_token_normalized 200 "body"
        { error := 0, error_msg := none,
          data := some { qrcode_token := "tok123", status := "CONFIRMED" } }
        { qrcode_token := "tok123", status := "CONFIRMED" } (by decide) rfl rfl).1
    rw [h]
    rfl

/-- C3 counterexample: a non-integral JSON number is not a decode error for
the flexible identifier; the value 1.5 decodes to the string "1.5". -/
theorem C3_counterexample :
    deserialize_session_id (Json.num (JsonNumber.dec 1 "5")) =
      Except.ok (some "1.5") := rfl

/-- C3 amended: the flexible-identifier decode accepts a string verbatim,
formats an integer JSON number as its base-10 decimal string (987654321
decodes to "987654321", never "987654321.0"), accepts a non-integral JSON
number as well, rendering it with its decimal float form instead of
erroring, maps null to the absent identifier, and rejects objects, arrays
and booleans with a decode error. -/
theorem C3_deserialize_session_id_amended :
    (∀ s, deserialize_session_id (Json.str s) = Except.ok (some s)) ∧
    (∀ i, deserialize_session_id (Json.num (JsonNumber.int i)) =
      Except.ok (some (toString i))) ∧
    deserialize_session_id (Json.num (JsonNumber.int 987654321)) =
      Except.ok (some "987654321") ∧
    (∀ i frac, deserialize_session_id (Json.num (JsonNumber.dec i frac)) =
      Except.ok (some (toString i ++ "." ++ frac))) ∧
    deserialize_session_id Json.null = Except.ok none ∧
    (∀ b, deserialize_session_id (Json.bool b) =
      Except.error "invalid type: expected string, number, or null") ∧
    (∀ xs, deserialize_session_id (Json.arr xs) =
      Except.error "invalid type: expected string, number, or null") ∧
    (∀ fs, deserialize_session_id (Json.obj fs) =
      Except.error "invalid type: expected string, number, or null") :=
  ⟨fun _ => rfl, fun _ => rfl, rfl, fun _ _ => rfl, rfl,
   fun _ => rfl, fun _ => rfl, fun _ => rfl⟩

/-- C5 counterexample: the token-exchange phase does not fail on error code
0 with an absent data payload; it returns a successful LoginResult, so the
missing-data rule does not hold uniformly across the three phases. -/
theorem C5_counterexample :
    qr_login_handle 200 [] "\x7b\"error\":0\x7d"
        (decodeQRCodeLoginResponse (Json.obj [("error", Json.num (JsonNumber.int 0))])) =
      Except.ok { success := true, cookies := some "", error_msg := none } := rfl

/-- C5 amended: for challenge generation and status polling, a decoded
response with error code 0 and an absent data payload fails with a
missing-data message that differs from every nonzero-error-code message;
the token-exchange phase, however, never inspects the data payload and
returns a successful outcome on error code 0 even with data absent. -/
theorem C5_missing_data_vs_nonzero (status : Nat) (text : String)
    (hdrs : List String) (g : ShopeeQRResponse) (s : ShopeeQRStatusResponse)
    (l : QRCodeLoginResponse) (hs : is_success status = true) :
    (g.error = 0 → g.data = none →
      generate_shopee_qr_handle status text (Except.ok g) =
        Except.error "Invalid response from Shopee API") ∧
    (g.error ≠ 0 →
      generate_shopee_qr_handle status text (Except.ok g) =
        Except.error ("Shopee API error: " ++ toString g.error ++ " - " ++
          g.error_msg.getD "Unknown error") ∧
      ("Shopee API error: " ++ toString g.error ++ " - " ++
        g.error_msg.getD "Unknown error") ≠ "Invalid response from Shopee API") ∧
    (s.error = 0 → s.data = none →
      check_qr_status_handle status text (Except.ok s) =
        Except.error "No data in response") ∧
    (s.error ≠ 0 →
      check_qr_status_handle status text (Except.ok s) =
        Except.error ("Shopee API error: " ++ toString s.error ++ " - " ++
          s.error_msg.getD "Unknown error") ∧
      ("Shopee API error: " ++ toString s.error ++ " - " ++
        s.error_msg.getD "Unknown error") ≠ "No data in response") ∧
    (l.error = 0 → l.data = none →
      qr_login_handle status hdrs text (Except.ok l) =
        Except.ok { success := true,
                    cookies := some (String.intercalate "; " hdrs),
                    error_msg := none }) := by
  refine ⟨fun h0 hd => ?_, fun hne => ⟨?_, shopeeApiErrorNeInvalid _ _⟩,
          fun h0 hd => ?_, fun hne => ⟨?_, shopeeApiErrorNeNoData _ _⟩,
          fun h0 hd => ?_⟩
  · simp [generate_shopee_qr_handle, hs, h0, hd]
  · simp [generate_shopee_qr_handle, hs, hne]
  · simp [check_qr_status_handle, hs, h0, hd]
  · simp [check_qr_status_handle, hs, hne]
  · simp [qr_login_handle, hs, h0]

/-- C5 witness: the generate and poll phases at error 0 with absent data
give their missing-data failures; at error 2 they give a distinct upstream
message; the exchange phase succeeds on error 0 with absent data. -/
theorem C5_missing_data_vs_nonzero_witness :
    generate_shopee_qr_handle 200 "t"
        (Except.ok { error := 0, error_msg := none, data := none }) =
      Except.error "Invalid response from Shopee API" ∧
    check_qr_status_handle 200 "t"
        (Except.ok { error := 0, error_msg := none, data := none }) =
      Except.error "No data in response" ∧
    qr_login_handle 200 [] "t"
        (Except.ok { bff_meta := none, error := 0, error_msg := none, data := none }) =
      Except.ok { success := true, cookies := some "", error_msg := none } ∧
    generate_shopee_qr_handle 200 "t"
        (Except.ok { error := 2, error_msg := some "bad", data := none }) =
      Except.error "Shopee API error: 2 - bad" ∧
    ("Shopee API error: 2 - bad" : String) ≠ "Invalid response from Shopee API" := by
  have hA := C5_missing_data_vs_nonzero 200 "t" []
      { error := 0, error_msg := none, data := none }
      { error := 0, error_msg := none, data := none }
      { bff_meta := none, error := 0, error_msg := none, data := none } (by decide)
  have hB := C5_missing_data_vs_nonzero 200 "t" []
      ({ error := 2, error_msg := some "bad", data := none } : ShopeeQRResponse)
      { error := 0, error_msg := none, data := none }
      { bff_meta := none, error := 0, error_msg := none, data := none } (by decide)
  refine ⟨hA.1 rfl rfl, hA.2.2.1 rfl rfl, ?_, ?_, ?_⟩
  · have h := hA.2.2.2.2 rfl rfl
    rw [h]
    rfl
  · have h := (hB.2.1 (by decide)).1
    rw [h]
    rfl
  · have h := (hB.2.1 (by decide)).2
    intro hcontra
    exact h (by rw [← hcontra]; rfl)

/-- C6 counterexample: the shopee-account create operation does not extract
the created object under the key shopee_account: a success response nesting
a perfectly valid account under that key is rejected with a parse failure,
while the nested object itself decodes fine. -/
theorem C6_counterexample :
    add_shopee_account_extract
        { success := true,
          data := some (Json.obj [("shopee_account", goodAccountJson)]),
          message := none } =
      Except.error "Failed to parse account: invalid type: null, expected struct ShopeeAccount" ∧
    decodeShopeeAccount goodAccountJson =
      Except.ok { id := 7, name := "main", is_active := true, created_at := none } :=
  ⟨rfl, rfl⟩

/-- C6 amended: shopee-account update, niche create and product-set create
extract the object under the endpoint-specific keys shopee_account, niche
and product_set, but shopee-account create extracts under the generic key
data; in each of the four operations a success response lacking the expected
key yields a parse failure, never a silently-null object. -/
theorem C6_nested_extraction_keys :
    (∀ (d : Json) (m : Option String) (a : ShopeeAccount),
      decodeShopeeAccount (jindex d "data") = Except.ok a →
      add_shopee_account_extract { success := true, data := some d, message := m } =
        Except.ok a) ∧
    (∀ (fields : List (String × Json)) (m : Option String),
      List.lookup "data" fields = none →
      add_shopee_account_extract
          { success := true, data := some (Json.obj fields), message := m } =
        Except.error "Failed to parse account: invalid type: null, expected struct ShopeeAccount") ∧
    (∀ (d : Json) (m : Option String) (a : ShopeeAccount),
      decodeShopeeAccount (jindex d "shopee_account") = Except.ok a →
      update_shopee_account_extract { success := true, data := some d, message := m } =
        Except.ok a) ∧
    (∀ (fields : List (String × Json)) (m : Option String),
      List.lookup "shopee_account" fields = none →
      update_shopee_account_extract
          { success := true, data := some (Json.obj fields), message := m } =
        Except.error "Failed to parse account: invalid type: null, expected struct ShopeeAccount") ∧
    (∀ (d : Json) (m : Option String) (n : Niche),
      decodeNiche (jindex d "niche") = Except.ok n →
      create_niche_extract { success := true, data := some d, message := m } =
        Except.ok n) ∧
    (∀ (fields : List (String × Json)) (m : Option String),
      List.lookup "niche" fields = none →
      create_niche_extract
          { success := true, data := some (Json.obj fields), message := m } =
        Except.error "Failed to parse niche: invalid type: null, expected struct Niche") ∧
    (∀ (d : Json) (m : Option String) (p : ProductSet),
      decodeProductSet (jindex d "product_set") = Except.ok p →
      create_product_set_extract { success := true, data := some d, message := m } =
        Except.ok p) ∧
    (∀ (fields : List (String × Json)) (m : Option String),
      List.lookup "product_set" fields = none →
      create_product_set_extract
          { success := true, data := some (Json.obj fields), message := m } =
        Except.error "Failed to parse product set: invalid type: null, expected struct ProductSet") := by
  refine ⟨fun d m a hdec => ?_, fun fields m hlk => ?_,
          fun d m a hdec => ?_, fun fields m hlk => ?_,
          fun d m n hdec => ?_, fun fields m hlk => ?_,
          fun d m p hdec => ?_, fun fields m hlk => ?_⟩
  · simp [add_shopee_account_extract, hdec]
  · simp [add_shopee_account_extract, jindex, hlk, decodeShopeeAccount]
  · simp [update_shopee_account_extract, hdec]
  · simp [update_shopee_account_extract, jindex, hlk, decodeShopeeAccount]
  · simp [create_niche_extract, hdec]
  · simp [create_niche_extract, jindex, hlk, decodeNiche]
  · simp [create_product_set_extract, hdec]
  · simp [create_product_set_extract, jindex, hlk, decodeProductSet]

/-- C6 witness: create finds the account under the key data, update finds
it under shopee_account, create-niche finds the niche under niche, and a
success response without the niche key fails rather than yielding a null
niche. -/
theorem C6_nested_extraction_keys_witness :
    add_shopee_account_extract
        { success := true, data := some (Json.obj [("data", goodAccountJson)]),
          message := none } =
      Except.ok { id := 7, name := "main", is_active := true, created_at := none } ∧
    update_shopee_account_extract
        { success := true,
          data := some (Json.obj [("shopee_account", goodAccountJson)]),
          message := none } =
      Except.ok { id := 7, name := "main", is_active := true, created_at := none } ∧
    create_niche_extract
        { success := true, data := some (Json.obj [("niche", goodNicheJson)]),
          message := none } =
      Except.ok { id := 3, name := "fashion", description := none, product_sets := [] } ∧
    create_niche_extract
        { success := true, data := some (Json.obj [("other", Json.bool true)]),
          message := none } =
      Except.error "Failed to parse niche: invalid type: null, expected struct Niche" := by
  refine ⟨?_, ?_, ?_, ?_⟩
  · exact C6_nested_extraction_keys.1 (Json.obj [("data", goodAccountJson)]) none
      { id := 7, name := "main", is_active := true, created_at := none } rfl
  · exact C6_nested_extraction_keys.2.2.1 (Json.obj [("shopee_account", goodAccountJson)]) none
      { id := 7, name := "main", is_active := true, created_at := none } rfl
  · exact C6_nested_extraction_keys.2.2.2.2.1 (Json.obj [("niche", goodNicheJson)]) none
      { id := 3, name := "fashion", description := none, product_sets := [] } rfl
  · exact C6_nested_extraction_keys.2.2.2.2.2.1 [("other", Json.bool true)] none rfl

/-- UTF-8 length distributes over list append. -/
theorem utf8Len_append (xs ys : List Char) :
    utf8Len (xs ++ ys) = utf8Len xs + utf8Len ys := by
  induction xs with
  | nil => simp [utf8Len]
  | cons c cs ih => simp [utf8Len, ih, Nat.add_assoc]

/-- UTF-8 length of a replicated character. -/
theorem utf8Len_replicate (n : Nat) (c : Char) :
    utf8Len (List.replicate n c) = n * c.utf8Size := by
  induction n with
  | zero => simp [utf8Len]
  | succ m ih =>
    rw [List.replicate_succ]
    simp [utf8Len, ih, Nat.succ_mul]
    ring

/-- Unfolding step of the boundary test on a cons cell. -/
theorem charBoundaryAux_cons (c : Char) (cs : List Char) (n : Nat) :
    charBoundaryAux (c :: cs) (n + 1) =
      if n + 1 < c.utf8Size then false
      else charBoundaryAux cs (n + 1 - c.utf8Size) := rfl

/-- Walking a run of one-byte characters moves the boundary offset down
with it. -/
theorem charBoundaryAux_ascii (n k : Nat) (rest : List Char) :
    charBoundaryAux (List.replicate n 'a' ++ rest) (n + k) =
      charBoundaryAux rest k := by
  induction n with
  | zero => simp
  | succ m ih =>
    have ha : Char.utf8Size 'a' = 1 := by decide
    have h2 : m + 1 + k = m + k + 1 := by omega
    rw [List.replicate_succ, List.cons_append, h2, charBoundaryAux_cons, ha]
    have h3 : ¬ (m + k + 1 < 1) := by omega
    rw [if_neg h3]
    have h4 : m + k + 1 - 1 = m + k := by omega
    rw [h4]
    exact ih

/-- C7: the response-body log step of the request executor is not
panic-free: a body of 501 bytes whose byte offset 500 falls inside a
two-byte character reaches the truncation branch and the byte slice of the
first 500 bytes panics, because 500 is not a character boundary.  The body
length is at the threshold (501 is not under 500), so the claim that the
truncating log step cannot fail does not hold. -/
theorem C7_response_log_truncation_panics :
    rust_str_len c7_body = 501 ∧ api_response_body_log c7_body = none := by
  have ha : Char.utf8Size 'a' = 1 := by decide
  have hlen : rust_str_len c7_body = 501 := by
    show utf8Len (List.replicate 499 'a' ++ ['é']) = 501
    rw [utf8Len_append, utf8Len_replicate, ha]
    have he2 : utf8Len ['é'] = 2 := by decide
    rw [he2]
  have hb : charBoundaryAux c7_body.data 500 = false := by
    show charBoundaryAux (List.replicate 499 'a' ++ ['é']) 500 = false
    have h500 : (500 : Nat) = 499 + 1 := by norm_num
    rw [h500, charBoundaryAux_ascii 499 1 ['é']]
    decide
  refine ⟨hlen, ?_⟩
  simp [api_response_body_log, rust_slice_to, hlen, hb]

/-- C8 counterexample: an active-session response object with the
session_id field entirely absent does not decode to the absent identifier;
it is a hard missing-field decode error. -/
theorem C8_counterexample :
    decodeActiveSessionApiResponse (Json.obj [("success", Json.bool true)]) =
      Except.error "missing field `session_id`" := rfl

/-- C8 amended: decoding an active-session response object whose field list
lacks session_id always fails with a decode error, while a field present as
an explicit null decodes to the absent identifier. -/
theorem C8_absent_session_id_errors :
    (∀ (fields : List (String × Json)),
      "session_id" ∉ fields.map Prod.fst →
      ∃ e, decodeActiveSessionApiResponse (Json.obj fields) = Except.error e) ∧
    decodeActiveSessionApiResponse
        (Json.obj [("success", Json.bool true), ("session_id", Json.null)]) =
      Except.ok { success := true, session_id := none, message := none } := by
  constructor
  · intro fields h
    exact collectActiveSession_no_sid fields h none none
  · rfl

/-- C8 witness: a response with success and message but no session_id field
fails to decode, while an explicit null session_id decodes to the absent
identifier. -/
theorem C8_absent_session_id_errors_witness :
    (∃ e, decodeActiveSessionApiResponse
        (Json.obj [("success", Json.bool true), ("message", Json.str "x")]) =
      Except.error e) ∧
    decodeActiveSessionApiResponse
        (Json.obj [("success", Json.bool true), ("session_id", Json.null)]) =
      Except.ok { success := true, session_id := none, message := none } :=
  ⟨C8_absent_session_id_errors.1
      [("success", Json.bool true), ("message", Json.str "x")] (by decide),
   C8_absent_session_id_errors.2⟩
